import Mathlib

set_option maxRecDepth 8192

/-!
# Verification of the post-install diagnostic warning composition

Shallow embedding of `src/services/analytics-type.ts` (class `PostInstallCommand`).
The composer logic lives in `printPackageManagerTip`, `printNSWarnings` and
`printAppBuilderWarnings`; `execute` dispatches on `CLIENT_NAME === "tns"`
(the NativeScript persona, called `PrimaryProduct` in the spec) versus the
AppBuilder persona (`LegacyProduct`).

Modelling decisions:
* each `$logger.warn` / `$logger.out` call becomes one `LogEntry` in an
  ordered output list;
* the host queries `hostInfo.isWindows()` / `hostInfo.isDarwin()` become an
  explicit `Platform` parameter;
* the `ISysInfoData` fields read by the code become a structure whose
  optional string fields use `Option String` (`none` = not detected, matching
  the falsy checks `!sysInfo.adbVer` etc. in the source);
* `os.EOL` is modelled as the constant `"\n"`; no claim compares text across
  two different line-ending conventions, so the choice is immaterial.
-/

/-- Line terminator used by the source via `os.EOL`. -/
def osEOL : String := "\n"

/-- One logger call: `$logger.warn msg` or `$logger.out msg`. -/
inductive LogEntry where
  | warn (msg : String)
  | out (msg : String)
deriving DecidableEq, Repr

/-- Host platform, from `hostInfo.isWindows()` / `hostInfo.isDarwin()`. -/
inductive Platform where
  | Windows
  | Darwin
  | Other
deriving DecidableEq, Repr, Fintype

/-- CLI persona: `PrimaryProduct` is the NativeScript CLI
(`CLIENT_NAME === "tns"`), `LegacyProduct` the AppBuilder CLI. -/
inductive Persona where
  | PrimaryProduct
  | LegacyProduct
deriving DecidableEq, Repr, Fintype

/-- The fields of `ISysInfoData` read by `PostInstallCommand`.
`none` models a falsy (absent) version string. -/
structure ISysInfoData where
  adbVer : Option String
  antVer : Option String
  androidInstalled : Bool
  xcodeVer : Option String
  itunesInstalled : Bool
  javaVer : Option String
deriving DecidableEq, Repr

/-! ## Message text, transcribed from the source -/

/-- `printNSWarnings`, adb branch, `$logger.warn` text (line 84). -/
def nsAdbWarning : LogEntry :=
  .warn ("WARNING: adb from the Android SDK is not installed or is not configured properly.")

/-- `printNSWarnings`, adb branch, `$logger.out` text (lines 85-88). -/
def nsAdbDetail : LogEntry :=
  .out ("For Android-related operations, the NativeScript CLI will use a built-in version of adb." ++ osEOL
  ++ "To avoid possible issues with the native Android emulator, Genymotion or connected" ++ osEOL
  ++ "Android devices, verify that you have installed the latest Android SDK and" ++ osEOL
  ++ "its dependencies as described in http://developer.android.com/sdk/index.html#Requirements" ++ osEOL)

/-- `printNSWarnings`, ant branch, `$logger.warn` text (line 93). -/
def nsAntWarning : LogEntry :=
  .warn ("WARNING: Apache Ant is not installed or is not configured properly.")

/-- `printNSWarnings`, ant branch, `$logger.out` text (lines 94-96). -/
def nsAntDetail : LogEntry :=
  .out ("You will not be able to build your projects for Android." ++ osEOL
  ++ "To be able to build for Android, download and install Apache Ant and" ++ osEOL
  ++ "its dependencies as described in http://ant.apache.org/manual/index.html" ++ osEOL)

/-- `printNSWarnings`, Android SDK branch, `$logger.warn` text (line 101). -/
def nsSdkWarning : LogEntry :=
  .warn ("WARNING: The Android SDK is not installed or is not configured properly.")

/-- `printNSWarnings`, Android SDK branch, `$logger.out` text (lines 102-105). -/
def nsSdkDetail : LogEntry :=
  .out ("You will not be able to build your projects for Android and run them in the native emulator." ++ osEOL
  ++ "To be able to build for Android and run apps in the native emulator, verify that you have" ++ osEOL
  ++ "installed the latest Android SDK and its dependencies as described in http://developer.android.com/sdk/index.html#Requirements" ++ osEOL)

/-- `printNSWarnings`, Xcode branch, `$logger.warn` text (line 110). -/
def nsXcodeWarning : LogEntry :=
  .warn ("WARNING: Xcode is not installed or is not configured properly.")

/-- `printNSWarnings`, Xcode branch, `$logger.out` text (lines 111-112). -/
def nsXcodeDetail : LogEntry :=
  .out ("You will not be able to build your projects for iOS or run them in the iOS Simulator." ++ osEOL
  ++ "To be able to build for iOS and run apps in the native emulator, verify that you have installed Xcode." ++ osEOL)

/-- `printNSWarnings`, iTunes branch, `$logger.warn` text (line 115). -/
def nsItunesWarning : LogEntry :=
  .warn ("WARNING: iTunes is not installed.")

/-- `printNSWarnings`, iTunes branch, `$logger.out` text (lines 116-118). -/
def nsItunesDetail : LogEntry :=
  .out ("You will not be able to work with iOS devices via cable connection." ++ osEOL
  ++ "To be able to work with connected iOS devices," ++ osEOL
  ++ "download and install iTunes from http://www.apple.com" ++ osEOL)

/-- `printNSWarnings`, Java branch, `$logger.warn` text (line 121). -/
def nsJavaWarning : LogEntry :=
  .warn ("WARNING: The Java Development Kit (JDK) is not installed or is not configured properly.")

/-- `printNSWarnings`, Java branch, `$logger.out` text (lines 122-126). -/
def nsJavaDetail : LogEntry :=
  .out ("You will not be able to work with the Android SDK and you might not be able" ++ osEOL
  ++ "to perform some Android-related operations. To ensure that you can develop and" ++ osEOL
  ++ "test your apps for Android, verify that you have installed the JDK as" ++ osEOL
  ++ "described in http://docs.oracle.com/javase/8/docs/technotes/guides/install/install_overview.html (for JDK 8)" ++ osEOL
  ++ "or http://docs.oracle.com/javase/7/docs/webnotes/install/ (for JDK 7)." ++ osEOL)

/-- `printAppBuilderWarnings`, adb branch, `$logger.warn` text (line 132;
note the trailing space present in the source). -/
def abAdbWarning : LogEntry :=
  .warn ("WARNING: adb from the Android SDK is not installed or is not configured properly. ")

/-- `printAppBuilderWarnings`, adb branch, `$logger.out` text (lines 133-136). -/
def abAdbDetail : LogEntry :=
  .out ("For Android-related operations, the AppBuilder CLI will use a built-in version of adb." ++ osEOL
  ++ "To avoid possible issues with the native Android emulator, Genymotion or connected" ++ osEOL
  ++ "Android devices, verify that you have installed the latest Android SDK and" ++ osEOL
  ++ "its dependencies as described in http://developer.android.com/sdk/index.html#Requirements" ++ osEOL)

/-- `printAppBuilderWarnings`, Android SDK branch, `$logger.warn` text (line 141). -/
def abSdkWarning : LogEntry :=
  .warn ("WARNING: The Android SDK is not installed or is not configured properly.")

/-- `printAppBuilderWarnings`, Android SDK branch, `$logger.out` text (lines 142-145). -/
def abSdkDetail : LogEntry :=
  .out ("You will not be able to run your apps in the native emulator. To be able to run apps" ++ osEOL
  ++ "in the native Android emulator, verify that you have installed the latest Android SDK " ++ osEOL
  ++ "and its dependencies as described in http://developer.android.com/sdk/index.html#Requirements" ++ osEOL)

/-- `printAppBuilderWarnings`, iTunes branch, `$logger.warn` text (line 150). -/
def abItunesWarning : LogEntry :=
  .warn ("WARNING: iTunes is not installed.")

/-- `printAppBuilderWarnings`, iTunes branch, `$logger.out` text (lines 151-153). -/
def abItunesDetail : LogEntry :=
  .out ("You will not be able to work with iOS devices via cable connection." ++ osEOL
  ++ "To be able to work with connected iOS devices," ++ osEOL
  ++ "download and install iTunes from http://www.apple.com" ++ osEOL)

/-- `printAppBuilderWarnings`, Java branch, `$logger.warn` text (line 156). -/
def abJavaWarning : LogEntry :=
  .warn ("WARNING: The Java Development Kit (JDK) is not installed or is not configured properly.")

/-- `printAppBuilderWarnings`, Java branch, `$logger.out` text (lines 157-161). -/
def abJavaDetail : LogEntry :=
  .out ("You will not be able to work with the Android SDK and you might not be able" ++ osEOL
  ++ "to perform some Android-related operations. To ensure that you can develop and" ++ osEOL
  ++ "test your apps for Android, verify that you have installed the JDK as" ++ osEOL
  ++ "described in http://docs.oracle.com/javase/8/docs/technotes/guides/install/install_overview.html (for JDK 8)" ++ osEOL
  ++ "or http://docs.oracle.com/javase/7/docs/webnotes/install/ (for JDK 7)." ++ osEOL)

/-- The chocolatey tip printed by `printPackageManagerTip` on Windows (line 76). -/
def chocoTipEntry : LogEntry :=
  .out ("TIP: To avoid setting up the necessary environment variables, you can use the chocolatey package manager to install the Android SDK and its dependencies." ++ osEOL)

/-- The Homebrew tip printed by `printPackageManagerTip` on Darwin (line 78). -/
def brewTipEntry : LogEntry :=
  .out ("TIP: To avoid setting up the necessary environment variables, you can use the Homebrew package manager to install the Android SDK and its dependencies." ++ osEOL)

/-! ## The composer, from the source -/

/-- `PostInstallCommand.printPackageManagerTip` (lines 74-80): emits the
platform package-manager tip on Windows or Darwin, nothing otherwise.
It reads only the platform, never the snapshot. -/
def printPackageManagerTip (platform : Platform) : List LogEntry :=
  if platform = .Windows then [chocoTipEntry]
  else if platform = .Darwin then [brewTipEntry]
  else []

/-- `PostInstallCommand.printNSWarnings` (lines 82-128): the six conditional
warning blocks of the NativeScript (PrimaryProduct) persona, in source order,
each block followed by the package-manager tip where the source calls
`printPackageManagerTip()`. -/
def printNSWarnings (sysInfo : ISysInfoData) (platform : Platform) : List LogEntry :=
  (if sysInfo.adbVer.isNone then
    [nsAdbWarning, nsAdbDetail] ++ printPackageManagerTip platform
  else []) ++
  (if sysInfo.antVer.isNone then
    [nsAntWarning, nsAntDetail] ++ printPackageManagerTip platform
  else []) ++
  (if !sysInfo.androidInstalled then
    [nsSdkWarning, nsSdkDetail] ++ printPackageManagerTip platform
  else []) ++
  (if platform = .Darwin && sysInfo.xcodeVer.isNone then
    [nsXcodeWarning, nsXcodeDetail]
  else []) ++
  (if !sysInfo.itunesInstalled then
    [nsItunesWarning, nsItunesDetail]
  else []) ++
  (if sysInfo.javaVer.isNone then
    [nsJavaWarning, nsJavaDetail]
  else [])

/-- `PostInstallCommand.printAppBuilderWarnings` (lines 130-163): the four
conditional warning blocks of the AppBuilder (LegacyProduct) persona, in
source order (no Ant block, no Xcode block). -/
def printAppBuilderWarnings (sysInfo : ISysInfoData) (platform : Platform) : List LogEntry :=
  (if sysInfo.adbVer.isNone then
    [abAdbWarning, abAdbDetail] ++ printPackageManagerTip platform
  else []) ++
  (if !sysInfo.androidInstalled then
    [abSdkWarning, abSdkDetail] ++ printPackageManagerTip platform
  else []) ++
  (if !sysInfo.itunesInstalled then
    [abItunesWarning, abItunesDetail]
  else []) ++
  (if sysInfo.javaVer.isNone then
    [abJavaWarning, abJavaDetail]
  else [])

/-- The composer: `execute` (lines 62-68) picks `printNSWarnings` when
`CLIENT_NAME === "tns"` (PrimaryProduct) and `printAppBuilderWarnings`
otherwise (LegacyProduct). -/
def compose (snapshot : ISysInfoData) (persona : Persona) (platform : Platform) : List LogEntry :=
  match persona with
  | .PrimaryProduct => printNSWarnings snapshot platform
  | .LegacyProduct => printAppBuilderWarnings snapshot platform

/-! ## The rule table of the spec, read off the source conditions -/

/-- The six rules of the spec's rule table, in table order:
adb (1), ant (2), android SDK (3), Xcode (4), iTunes (5), Java (6). -/
inductive Rule where
  | adb
  | ant
  | androidSdk
  | xcode
  | itunes
  | java
deriving DecidableEq, Repr, Fintype

/-- Position of a rule in the table (1-based). -/
def ruleIndex : Rule → Nat
  | .adb => 1
  | .ant => 2
  | .androidSdk => 3
  | .xcode => 4
  | .itunes => 5
  | .java => 6

/-- Whether a rule fires: its persona gate, platform gate and predicate all
pass, read off the `if` conditions of the two print procedures. -/
def fires (r : Rule) (s : ISysInfoData) (p : Persona) (pl : Platform) : Bool :=
  match r with
  | .adb => s.adbVer.isNone
  | .ant => p = .PrimaryProduct && s.antVer.isNone
  | .androidSdk => !s.androidInstalled
  | .xcode => p = .PrimaryProduct && pl = .Darwin && s.xcodeVer.isNone
  | .itunes => !s.itunesInstalled
  | .java => s.javaVer.isNone

/-- Tip-eligibility column of the rule table: the source calls
`printPackageManagerTip()` only inside the adb, ant and Android SDK blocks. -/
def tipEligible : Rule → Bool
  | .adb => true
  | .ant => true
  | .androidSdk => true
  | _ => false

/-- The `$logger.warn` entry a rule emits when it fires, per persona.
For rules the persona never runs (ant/Xcode under LegacyProduct) this is the
PrimaryProduct text; those cases are vacuous since the rule never fires. -/
def warnOf (r : Rule) (p : Persona) : LogEntry :=
  match r, p with
  | .adb, .PrimaryProduct => nsAdbWarning
  | .adb, .LegacyProduct => abAdbWarning
  | .ant, _ => nsAntWarning
  | .androidSdk, .PrimaryProduct => nsSdkWarning
  | .androidSdk, .LegacyProduct => abSdkWarning
  | .xcode, _ => nsXcodeWarning
  | .itunes, .PrimaryProduct => nsItunesWarning
  | .itunes, .LegacyProduct => abItunesWarning
  | .java, .PrimaryProduct => nsJavaWarning
  | .java, .LegacyProduct => abJavaWarning

/-- The `$logger.out` detail entry a rule emits when it fires, per persona. -/
def detailOf (r : Rule) (p : Persona) : LogEntry :=
  match r, p with
  | .adb, .PrimaryProduct => nsAdbDetail
  | .adb, .LegacyProduct => abAdbDetail
  | .ant, _ => nsAntDetail
  | .androidSdk, .PrimaryProduct => nsSdkDetail
  | .androidSdk, .LegacyProduct => abSdkDetail
  | .xcode, _ => nsXcodeDetail
  | .itunes, .PrimaryProduct => nsItunesDetail
  | .itunes, .LegacyProduct => abItunesDetail
  | .java, .PrimaryProduct => nsJavaDetail
  | .java, .LegacyProduct => abJavaDetail

/-- The warning block (headline + detail, without any tip) of a rule. -/
def blockOf (r : Rule) (p : Persona) : List LogEntry :=
  [warnOf r p, detailOf r p]

/-! ## Executable list predicates used to state ordering claims -/

/-- `leadsB l m` : `l` is a prefix of `m` (executable). -/
def leadsB [DecidableEq α] : List α → List α → Bool
  | [], _ => true
  | _ :: _, [] => false
  | a :: l, b :: m => if a = b then leadsB l m else false

/-- `isSegB l m` : `l` occurs contiguously inside `m` (executable). -/
def isSegB [DecidableEq α] (l : List α) : List α → Bool
  | [] => leadsB l []
  | b :: m => leadsB l (b :: m) || isSegB l m

/-- `isSublistB l m` : `l` is a (not necessarily contiguous) subsequence
of `m` (executable). -/
def isSublistB [DecidableEq α] : List α → List α → Bool
  | [], _ => true
  | _ :: _, [] => false
  | a :: l, b :: m => if a = b then isSublistB l m else isSublistB (a :: l) m

/-- Sanity: `leadsB` decides `List.IsPrefix`. -/
theorem leadsB_iff [DecidableEq α] (l m : List α) :
    leadsB l m = true ↔ l <+: m := by
  induction l generalizing m with
  | nil => simp [leadsB, List.nil_prefix]
  | cons a l ih =>
    cases m with
    | nil => simp [leadsB]
    | cons b m =>
      by_cases hab : a = b
      · subst hab
        simp [leadsB, ih, List.cons_prefix_cons]
      · simp [leadsB, hab, List.cons_prefix_cons]

/-- Sanity: `isSublistB` decides `List.Sublist`. -/
theorem isSublistB_iff [DecidableEq α] (l m : List α) :
    isSublistB l m = true ↔ List.Sublist l m := by
  induction m generalizing l with
  | nil =>
    cases l <;> simp [isSublistB]
  | cons b m ih =>
    cases l with
    | nil => simp [isSublistB]
    | cons a l =>
      by_cases hab : a = b
      · subst hab
        constructor
        · intro h
          simp only [isSublistB, if_pos rfl] at h
          exact List.Sublist.cons₂ a ((ih l).mp h)
        · intro h
          simp only [isSublistB, if_pos rfl]
          exact (ih l).mpr (List.cons_sublist_cons.mp h)
      · constructor
        · intro h
          simp only [isSublistB, if_neg hab] at h
          exact List.Sublist.cons b ((ih (a :: l)).mp h)
        · intro h
          simp only [isSublistB, if_neg hab]
          cases h with
          | cons _ h => exact (ih (a :: l)).mpr h
          | cons₂ => exact absurd rfl hab

/-! ## Finite abstraction

`compose` reads the snapshot only through six booleans (which capabilities
are missing).  `MissingFlags` packages those booleans, so that universally
quantified claims reduce, by the `rfl` bridges below, to a decidable check
over the finite space `MissingFlags × Persona × Platform`. -/

/-- The six booleans `compose` actually reads off the snapshot. -/
structure MissingFlags where
  adbMissing : Bool
  antMissing : Bool
  sdkMissing : Bool
  xcodeMissing : Bool
  itunesMissing : Bool
  javaMissing : Bool
deriving DecidableEq, Repr, Fintype

/-- Projection of a snapshot to the booleans `compose` reads. -/
def flagsOf (s : ISysInfoData) : MissingFlags where
  adbMissing := s.adbVer.isNone
  antMissing := s.antVer.isNone
  sdkMissing := !s.androidInstalled
  xcodeMissing := s.xcodeVer.isNone
  itunesMissing := !s.itunesInstalled
  javaMissing := s.javaVer.isNone

/-- `printNSWarnings` restated over the flags (same body, conditions read
from `MissingFlags`); `printNSWarnings_flags` proves it is the same function. -/
def printNSWarningsF (f : MissingFlags) (platform : Platform) : List LogEntry :=
  (if f.adbMissing then
    [nsAdbWarning, nsAdbDetail] ++ printPackageManagerTip platform
  else []) ++
  (if f.antMissing then
    [nsAntWarning, nsAntDetail] ++ printPackageManagerTip platform
  else []) ++
  (if f.sdkMissing then
    [nsSdkWarning, nsSdkDetail] ++ printPackageManagerTip platform
  else []) ++
  (if platform = .Darwin && f.xcodeMissing then
    [nsXcodeWarning, nsXcodeDetail]
  else []) ++
  (if f.itunesMissing then
    [nsItunesWarning, nsItunesDetail]
  else []) ++
  (if f.javaMissing then
    [nsJavaWarning, nsJavaDetail]
  else [])

/-- `printAppBuilderWarnings` restated over the flags. -/
def printAppBuilderWarningsF (f : MissingFlags) (platform : Platform) : List LogEntry :=
  (if f.adbMissing then
    [abAdbWarning, abAdbDetail] ++ printPackageManagerTip platform
  else []) ++
  (if f.sdkMissing then
    [abSdkWarning, abSdkDetail] ++ printPackageManagerTip platform
  else []) ++
  (if f.itunesMissing then
    [abItunesWarning, abItunesDetail]
  else []) ++
  (if f.javaMissing then
    [abJavaWarning, abJavaDetail]
  else [])

/-- `compose` restated over the flags. -/
def composeF (f : MissingFlags) (persona : Persona) (platform : Platform) : List LogEntry :=
  match persona with
  | .PrimaryProduct => printNSWarningsF f platform
  | .LegacyProduct => printAppBuilderWarningsF f platform

/-- `fires` restated over the flags. -/
def firesF (r : Rule) (f : MissingFlags) (p : Persona) (pl : Platform) : Bool :=
  match r with
  | .adb => f.adbMissing
  | .ant => p = .PrimaryProduct && f.antMissing
  | .androidSdk => f.sdkMissing
  | .xcode => p = .PrimaryProduct && pl = .Darwin && f.xcodeMissing
  | .itunes => f.itunesMissing
  | .java => f.javaMissing

/-- Bridge: `compose` factors through the flags projection. -/
theorem compose_flags (s : ISysInfoData) (p : Persona) (pl : Platform) :
    compose s p pl = composeF (flagsOf s) p pl := by
  cases p <;> rfl

/-- Bridge: `fires` factors through the flags projection. -/
theorem fires_flags (r : Rule) (s : ISysInfoData) (p : Persona) (pl : Platform) :
    fires r s p pl = firesF r (flagsOf s) p pl := by
  cases r <;> rfl

/-- Bridge: flags read the `xcodeVer` field as absence. -/
theorem flagsOf_xcodeMissing (s : ISysInfoData) :
    (flagsOf s).xcodeMissing = s.xcodeVer.isNone := rfl

/-! ## Claims -/

/-- Claim C1: the Xcode warning (rule 4) appears in the output of `compose`
iff the persona is PrimaryProduct, the platform is Darwin and `xcodeVer` is
absent; in every other combination it never appears. -/
theorem xcode_warning_iff (s : ISysInfoData) (p : Persona) (pl : Platform) :
    nsXcodeWarning ∈ compose s p pl ↔
      p = .PrimaryProduct ∧ pl = .Darwin ∧ s.xcodeVer = none := by
  rw [compose_flags, ← Option.isNone_iff_eq_none, ← flagsOf_xcodeMissing]
  generalize flagsOf s = f
  revert p pl f
  decide

/-- Claim C2: warnings appear in rule-table order: for any two rules with
smaller and larger table index that both fire, the first rule's warning
precedes the second rule's warning in the output of `compose`. -/
theorem warnings_in_rule_order (s : ISysInfoData) (p : Persona) (pl : Platform)
    (i j : Rule) (hij : ruleIndex i < ruleIndex j)
    (hi : fires i s p pl = true) (hj : fires j s p pl = true) :
    isSublistB [warnOf i p, warnOf j p] (compose s p pl) = true := by
  rw [compose_flags]
  rw [fires_flags] at hi hj
  revert hij hi hj
  generalize flagsOf s = f
  revert f p pl i j
  decide

/-- Witness for C2 at a concrete snapshot (everything missing), rules 1 and 6,
PrimaryProduct on the Other platform. -/
theorem warnings_in_rule_order_witness :
    ruleIndex .adb < ruleIndex .java ∧
    fires .adb ⟨none, none, false, none, false, none⟩ .PrimaryProduct .Other = true ∧
    fires .java ⟨none, none, false, none, false, none⟩ .PrimaryProduct .Other = true ∧
    isSublistB [warnOf .adb .PrimaryProduct, warnOf .java .PrimaryProduct]
      (compose ⟨none, none, false, none, false, none⟩ .PrimaryProduct .Other) = true :=
  ⟨by decide, by decide, by decide,
    warnings_in_rule_order ⟨none, none, false, none, false, none⟩ .PrimaryProduct .Other
      .adb .java (by decide) (by decide) (by decide)⟩

/-- Claim C3: under the LegacyProduct persona neither the Ant warning nor the
Xcode warning (headline or detail) ever appears, on any platform and any
snapshot. -/
theorem legacy_never_ant_or_xcode (s : ISysInfoData) (pl : Platform) :
    nsAntWarning ∉ compose s .LegacyProduct pl ∧
    nsAntDetail ∉ compose s .LegacyProduct pl ∧
    nsXcodeWarning ∉ compose s .LegacyProduct pl ∧
    nsXcodeDetail ∉ compose s .LegacyProduct pl := by
  rw [compose_flags]
  generalize flagsOf s = f
  revert f pl
  decide

/-- Claim C6: when every capability is present (`adbVer`, `antVer`,
`xcodeVer`, `javaVer` all some, `androidInstalled` and `itunesInstalled`
true), `compose` returns the empty sequence for every persona and platform. -/
theorem all_present_empty_output (p : Persona) (pl : Platform)
    (va vb vx vj : String) :
    compose ⟨some va, some vb, true, some vx, true, some vj⟩ p pl = [] := by
  cases p <;> cases pl <;> rfl

/-- Claim C7: on the spec's end-to-end example (adb and Xcode missing,
everything else present, PrimaryProduct, Darwin) the output is exactly the
adb warning block, the Homebrew tip, then the Xcode warning block. -/
theorem end_to_end_example :
    compose ⟨none, some ("1.9"), true, none, true, some ("1.8")⟩
        .PrimaryProduct .Darwin =
      [nsAdbWarning, nsAdbDetail, brewTipEntry, nsXcodeWarning, nsXcodeDetail] := rfl

/-- Claim C9: the iTunes warning (rule 5) and the Java warning (rule 6) have
character-for-character identical headline and detail text under both
personas. -/
theorem itunes_java_text_persona_independent :
    warnOf .itunes .PrimaryProduct = warnOf .itunes .LegacyProduct ∧
    detailOf .itunes .PrimaryProduct = detailOf .itunes .LegacyProduct ∧
    warnOf .java .PrimaryProduct = warnOf .java .LegacyProduct ∧
    detailOf .java .PrimaryProduct = detailOf .java .LegacyProduct := by
  refine ⟨rfl, rfl, rfl, rfl⟩

/-- `tipAfterBlock r p l` : some package-manager tip entry stands immediately
after rule `r`'s warning block inside `l`. -/
def tipAfterBlock (r : Rule) (p : Persona) (l : List LogEntry) : Bool :=
  isSegB (blockOf r p ++ [chocoTipEntry]) l || isSegB (blockOf r p ++ [brewTipEntry]) l

/-- The tip-eligible rules of the table, in table order. -/
def tipRules : List Rule := [.adb, .ant, .androidSdk]

set_option maxRecDepth 8192 in
/-- Claim C4: a package-manager tip stands immediately after a firing of a
tip-eligible rule (1, 2 or 3) iff the platform is Windows or Darwin; on the
Other platform no tip entry ever appears; and no tip ever stands immediately
after the block of rule 4, 5 or 6. -/
theorem tip_placement (s : ISysInfoData) (p : Persona) (pl : Platform) :
    (∀ r : Rule, tipEligible r = true → fires r s p pl = true →
      (tipAfterBlock r p (compose s p pl) = true ↔ pl = .Windows ∨ pl = .Darwin)) ∧
    (pl = .Other → chocoTipEntry ∉ compose s p pl ∧ brewTipEntry ∉ compose s p pl) ∧
    (∀ r : Rule, tipEligible r = false → tipAfterBlock r p (compose s p pl) = false) := by
  simp only [compose_flags, fires_flags]
  generalize flagsOf s = f
  revert f p pl
  decide

/-- Witness for C4 at a concrete input: adb missing, PrimaryProduct on
Windows; the tip stands right after the adb block. -/
theorem tip_placement_witness :
    tipEligible .adb = true ∧
    fires .adb ⟨none, some ("1"), true, none, true, some ("1")⟩ .PrimaryProduct .Windows = true ∧
    tipAfterBlock .adb .PrimaryProduct
      (compose ⟨none, some ("1"), true, none, true, some ("1")⟩ .PrimaryProduct .Windows) = true :=
  ⟨by decide, by decide,
    ((tip_placement ⟨none, some ("1"), true, none, true, some ("1")⟩ .PrimaryProduct .Windows).1
      .adb (by decide) (by decide)).mpr (Or.inl rfl)⟩

set_option maxRecDepth 8192 in
/-- Claim C5: on Windows or Darwin the platform tip is emitted once per
firing of each tip-eligible rule, with no deduplication: the number of tip
entries equals the number of firing tip-eligible rules, and one tip stands
immediately after each firing block. -/
theorem tip_once_per_firing (s : ISysInfoData) (p : Persona) (pl : Platform)
    (h : pl = .Windows ∨ pl = .Darwin) :
    (compose s p pl).count (if pl = .Windows then chocoTipEntry else brewTipEntry) =
      (tipRules.filter (fun r => fires r s p pl)).length ∧
    (∀ r ∈ tipRules, fires r s p pl = true →
      isSegB (blockOf r p ++ [if pl = .Windows then chocoTipEntry else brewTipEntry])
        (compose s p pl) = true) := by
  simp only [compose_flags, fires_flags]
  revert h
  generalize flagsOf s = f
  revert f p pl
  decide

/-- Witness for C5 at a concrete input: adb, ant and the Android SDK all
missing under PrimaryProduct on Darwin, so three Homebrew tips appear. -/
theorem tip_once_per_firing_witness :
    (Platform.Darwin = Platform.Windows ∨ Platform.Darwin = Platform.Darwin) ∧
    ((compose ⟨none, none, false, none, true, some ("1")⟩ .PrimaryProduct .Darwin).count
        (if Platform.Darwin = Platform.Windows then chocoTipEntry else brewTipEntry) =
      (tipRules.filter
        (fun r => fires r ⟨none, none, false, none, true, some ("1")⟩ .PrimaryProduct .Darwin)).length) :=
  ⟨Or.inr rfl,
    (tip_once_per_firing ⟨none, none, false, none, true, some ("1")⟩ .PrimaryProduct .Darwin
      (Or.inr rfl)).1⟩

/-- Helper: a chocolatey tip entry can only occur in the output on Windows,
a Homebrew tip entry only on Darwin. -/
theorem tips_locate (s : ISysInfoData) (p : Persona) (pl : Platform) :
    (chocoTipEntry ∈ compose s p pl → pl = .Windows) ∧
    (brewTipEntry ∈ compose s p pl → pl = .Darwin) := by
  rw [compose_flags]
  generalize flagsOf s = f
  revert f p pl
  decide

/-- Claim C8: tip text is a function of the platform alone: any two tip
entries produced by `compose` on the same platform are identical, every tip
on Windows is the chocolatey tip and every tip on Darwin is the Homebrew
tip, whatever the snapshots and personas. -/
theorem tip_text_platform_only :
    (∀ (s₁ s₂ : ISysInfoData) (p₁ p₂ : Persona) (pl : Platform) (e₁ e₂ : LogEntry),
      e₁ ∈ compose s₁ p₁ pl → e₂ ∈ compose s₂ p₂ pl →
      e₁ = chocoTipEntry ∨ e₁ = brewTipEntry →
      e₂ = chocoTipEntry ∨ e₂ = brewTipEntry → e₁ = e₂) ∧
    (∀ (s : ISysInfoData) (p : Persona) (e : LogEntry),
      e ∈ compose s p .Windows → e = chocoTipEntry ∨ e = brewTipEntry →
      e = chocoTipEntry) ∧
    (∀ (s : ISysInfoData) (p : Persona) (e : LogEntry),
      e ∈ compose s p .Darwin → e = chocoTipEntry ∨ e = brewTipEntry →
      e = brewTipEntry) := by
  have hW : ∀ (s : ISysInfoData) (p : Persona) (e : LogEntry),
      e ∈ compose s p .Windows → e = chocoTipEntry ∨ e = brewTipEntry →
      e = chocoTipEntry := by
    intro s p e he hor
    rcases hor with h | h
    · exact h
    · subst h
      exact absurd ((tips_locate s p .Windows).2 he) (by decide)
  have hD : ∀ (s : ISysInfoData) (p : Persona) (e : LogEntry),
      e ∈ compose s p .Darwin → e = chocoTipEntry ∨ e = brewTipEntry →
      e = brewTipEntry := by
    intro s p e he hor
    rcases hor with h | h
    · subst h
      exact absurd ((tips_locate s p .Darwin).1 he) (by decide)
    · exact h
  refine ⟨?_, hW, hD⟩
  intro s₁ s₂ p₁ p₂ pl e₁ e₂ h1 h2 ho1 ho2
  cases pl with
  | Windows => rw [hW s₁ p₁ e₁ h1 ho1, hW s₂ p₂ e₂ h2 ho2]
  | Darwin => rw [hD s₁ p₁ e₁ h1 ho1, hD s₂ p₂ e₂ h2 ho2]
  | Other =>
    rcases ho1 with h | h <;> subst h
    · exact absurd ((tips_locate s₁ p₁ .Other).1 h1) (by decide)
    · exact absurd ((tips_locate s₁ p₁ .Other).2 h1) (by decide)

/-- Witness for C8: on Windows with adb missing, the tip entry in the output
is the chocolatey tip. -/
theorem tip_text_platform_only_witness :
    chocoTipEntry ∈ compose ⟨none, some ("1"), true, none, true, some ("1")⟩
        .PrimaryProduct .Windows ∧
    chocoTipEntry = chocoTipEntry :=
  ⟨by decide,
    tip_text_platform_only.2.1 ⟨none, some ("1"), true, none, true, some ("1")⟩
      .PrimaryProduct chocoTipEntry (by decide) (Or.inl rfl)⟩

/-- `degrades s t` : every capability absent (or false) in `s` is also
absent (or false) in `t`. -/
def degrades (s t : ISysInfoData) : Prop :=
  (s.adbVer = none → t.adbVer = none) ∧
  (s.antVer = none → t.antVer = none) ∧
  (s.androidInstalled = false → t.androidInstalled = false) ∧
  (s.xcodeVer = none → t.xcodeVer = none) ∧
  (s.itunesInstalled = false → t.itunesInstalled = false) ∧
  (s.javaVer = none → t.javaVer = none)

/-- A conditional block only grows when its condition is implied. -/
theorem sublist_ite_of_imp {α : Type} (c c' : Bool) (b : List α)
    (h : c = true → c' = true) :
    List.Sublist (if c then b else []) (if c' then b else []) := by
  cases c with
  | false => simp
  | true => simp [h rfl]

/-- Claim C10: `compose` is monotone in missing capabilities: if every
capability absent in `s` is also absent in `t`, the output for `s` is a
subsequence of the output for `t`, for every persona and platform. -/
theorem compose_monotone_in_missing (p : Persona) (pl : Platform)
    (s t : ISysInfoData) (h : degrades s t) :
    List.Sublist (compose s p pl) (compose t p pl) := by
  obtain ⟨a, an, ad, x, it, j⟩ := s
  obtain ⟨a', an', ad', x', it', j'⟩ := t
  unfold degrades at h
  dsimp only at h
  obtain ⟨h1, h2, h3, h4, h5, h6⟩ := h
  have g1 : a.isNone = true → a'.isNone = true := by
    cases a <;> cases a' <;> simp_all
  have g2 : an.isNone = true → an'.isNone = true := by
    cases an <;> cases an' <;> simp_all
  have g3 : (!ad) = true → (!ad') = true := by
    intro hh
    cases ad <;> cases ad' <;>
      first
      | rfl
      | exact absurd hh (by decide)
      | exact absurd (h3 rfl) (by decide)
  have g4 : (pl = Platform.Darwin && x.isNone) = true →
      (pl = Platform.Darwin && x'.isNone) = true := by
    cases x <;> cases x' <;> simp_all
  have g5 : (!it) = true → (!it') = true := by
    intro hh
    cases it <;> cases it' <;>
      first
      | rfl
      | exact absurd hh (by decide)
      | exact absurd (h5 rfl) (by decide)
  have g6 : j.isNone = true → j'.isNone = true := by
    cases j <;> cases j' <;> simp_all
  cases p with
  | PrimaryProduct =>
    show List.Sublist (printNSWarnings _ pl) (printNSWarnings _ pl)
    simp only [printNSWarnings]
    exact List.Sublist.append (List.Sublist.append (List.Sublist.append
      (List.Sublist.append (List.Sublist.append
        (sublist_ite_of_imp _ _ _ g1) (sublist_ite_of_imp _ _ _ g2))
        (sublist_ite_of_imp _ _ _ g3)) (sublist_ite_of_imp _ _ _ g4))
      (sublist_ite_of_imp _ _ _ g5)) (sublist_ite_of_imp _ _ _ g6)
  | LegacyProduct =>
    show List.Sublist (printAppBuilderWarnings _ pl) (printAppBuilderWarnings _ pl)
    simp only [printAppBuilderWarnings]
    exact List.Sublist.append (List.Sublist.append (List.Sublist.append
      (sublist_ite_of_imp _ _ _ g1) (sublist_ite_of_imp _ _ _ g3))
      (sublist_ite_of_imp _ _ _ g5)) (sublist_ite_of_imp _ _ _ g6)

/-- Witness for C10 at a concrete pair: `s` misses only adb, `t` misses
everything, PrimaryProduct on Darwin. -/
theorem compose_monotone_in_missing_witness :
    degrades ⟨none, some ("1"), true, some ("1"), true, some ("1")⟩
      ⟨none, none, false, none, false, none⟩ ∧
    List.Sublist
      (compose ⟨none, some ("1"), true, some ("1"), true, some ("1")⟩ .PrimaryProduct .Darwin)
      (compose ⟨none, none, false, none, false, none⟩ .PrimaryProduct .Darwin) :=
  ⟨by unfold degrades; decide,
    compose_monotone_in_missing .PrimaryProduct .Darwin
      ⟨none, some ("1"), true, some ("1"), true, some ("1")⟩
      ⟨none, none, false, none, false, none⟩ (by unfold degrades; decide)⟩
